import Mathlib

/-!
The orchestrator of narqo/report (`main.go`).

A shallow embedding of `src/main.go` (functions `main`, `writeReport`,
`initGopath`, `getResult`).  The file calls into collaborators it does not
define (`gopath`, `goroot`, `report`, declared in other files of the
repository) and into the Go standard library (`os`, `ioutil`, `time`).  Those
calls are operations of a `World` on an abstract state `σ`; every function of
`main.go` threads the state and returns, next to its Go result, the list of
calls it performed, each tagged with the source line of the call.

Go's `(value, error)` results are pairs `α × Option Err` (`none` is `nil`).
`log.Fatalf` and run-time panics end the process and are outcomes.
`log.Printf` / `log.Println` only write progress lines to standard error and
are not recorded; the clock reads of lines 37 and 88 feed only such a line.
-/

set_option linter.unusedVariables false
set_option linter.unusedTactic false
set_option maxRecDepth 100000

namespace Narqo

/-- A Go `error`, identified with its message. -/
abbrev Err := String

/-- A Go `[]byte`. -/
abbrev Bytes := List UInt8

/-- The bytes of a Go string (UTF-8). -/
def bytesOf (s : String) : Bytes := s.data.flatMap String.utf8EncodeChar

/-- Go's `time.Month` as returned by `Time.Date`. -/
inductive Month
  | January | February | March | April | May | June
  | July | August | September | October | November | December
  deriving DecidableEq, Repr

/-- `Month.String()`: the English name, what `%s` prints. -/
def Month.String : Month → String
  | .January => "January" | .February => "February" | .March => "March"
  | .April => "April" | .May => "May" | .June => "June"
  | .July => "July" | .August => "August" | .September => "September"
  | .October => "October" | .November => "November" | .December => "December"

/-- The triple `time.Now().Date()` yields. -/
structure Date where
  year : Int
  month : Month
  day : Int
  deriving DecidableEq, Repr

/-- The value `getGitLog` returns: fields `cnt` (printed with `%d`) and
`log` (written with `Buffer.Write`) as `writeReport` uses them. -/
structure GitLog where
  cnt : Int
  log : Bytes
  deriving DecidableEq, Repr

/-- The struct literal `report{...}` of lines 76-84; the types of the
collaborators (`gopath`, durations, results, benchmark results) are
parameters. -/
structure Report (G D R B : Type) where
  gp : G
  oldGoCompileTime : D
  newGoCompileTime : D
  oldResults : List R
  newResults : List R
  oldBenchmark : B
  newBenchmark : B

/-- Modelled from the spec: `report.Bytes` (its file, `report.go`, is not among
the sources).  The spec describes the rendering as a pure, side-effect-free
transformation of the two measurement snapshots whose output is determined by
them; its layout is not given, so it is a function of the report value alone,
returning Go's `([]byte, error)`. -/
abbrev Renderer (G D R B : Type) := Report G D R B → Bytes × Option Err

/-- The calls `main.go` makes into its collaborators and the standard
library. -/
inductive Call
  | getenv (key : String)
  | tempDir (dir pfx : String)
  | removeAll (path : String)
  | newGopath (path : String)
  | cleanPkg
  | goGet (pkg : List String)
  | newGoroot
  | switchRevision (rev : String)
  | runTest (pkg : String) (count : Nat)
  | runBenchmark (name : String)
  | getGitLog (a b : String)
  | now
  | reportBytes
  | writeFile (name : String) (data : Bytes) (perm : Nat)
  deriving DecidableEq, Repr

/-- One performed call: the line of `main.go` it is made from, the call, and
whether it came back without error. -/
structure Event where
  line : Nat
  call : Call
  ok : Bool
  deriving DecidableEq, Repr

/-- How a function of `main.go` ends. -/
inductive Outcome (α : Type)
  | returned (v : α)
  | fatal (format arg : String)
  | panicked
  deriving DecidableEq, Repr

/-- The exit status of the process: 0 when `main` returns, 1 from
`log.Fatalf` (`os.Exit(1)`), 2 from a run-time panic. -/
def Outcome.status {α : Type} : Outcome α → Nat
  | .returned _ => 0
  | .fatal _ _ => 1
  | .panicked => 2

/-- The collaborators of `main.go`, as operations on a world state. -/
structure World (σ G Gr D R B : Type) where
  getenv : String → σ → String
  tempDir : String → String → σ → (String × Option Err) × σ
  removeAll : String → σ → Option Err × σ
  zeroGopath : G
  newGopath : String → σ → (G × Option Err) × σ
  cleanPkg : G → σ → Option Err × σ
  goGet : G → List String → σ → Option Err × σ
  newGoroot : σ → Gr × σ
  switchRevision : Gr → String → σ → (D × Option Err) × σ
  runTest : G → String → Nat → σ → (R × Option Err) × σ
  runBenchmark : G → String → σ → (B × Option Err) × σ
  getGitLog : Gr → String → String → σ → (GitLog × Option Err) × σ
  now : σ → Date
  reportBytes : Renderer G D R B
  writeFile : String → Bytes → Nat → σ → Option Err × σ

def samplesCount : Nat := 1

def testPackages : List String := [
  "github.com/boltdb/bolt/cmd/bolt",
  "github.com/coreos/etcd",
  "github.com/gogits/gogs",
  "github.com/grafana/grafana/pkg/cmd/grafana-server",
  "github.com/influxdata/influxdb/cmd/influxd",
  "github.com/junegunn/fzf/src/fzf",
  "github.com/mholt/caddy/caddy",
  "github.com/monochromegane/the_platinum_searcher/cmd/pt",
  "github.com/nsqio/nsq/apps/nsqd",
  "github.com/prometheus/prometheus/cmd/prometheus",
  "github.com/spf13/hugo",
  "golang.org/x/tools/cmd/guru"]

def benchmark : String := "github.com/alecthomas/go_serialization_benchmarks"

def defaultReportName : String := "report.md"

/-- What `%d` prints for a Go integer. -/
def fmtInt (n : Int) : String := toString n

section Program

variable {σ G Gr D R B : Type}

/-- The body of the `for ... range` loop of `getResult` (lines 142-148) over
the remaining packages, `results` being the slice accumulated so far. -/
def getResultLoop (w : World σ G Gr D R B) (gp : G) :
    List String → List R → σ → (List R × Option Err) × σ × List Event
  | [], results, s => ((results, none), s, [])
  | pkg :: rest, results, s =>
    match w.runTest gp pkg samplesCount s with
    | ((_, some err), s1) => (([], some err), s1, [⟨143, .runTest pkg samplesCount, false⟩])
    | ((res, none), s1) =>
      let r := getResultLoop w gp rest (results ++ [res]) s1
      (r.1, r.2.1, ⟨143, .runTest pkg samplesCount, true⟩ :: r.2.2)

/-- `getResult` (lines 140-150).  The loop ranges over the global
`testPackages`; its variable `pkg` shadows the parameter `pkg`, which is not
read. -/
def getResult (w : World σ G Gr D R B) (gp : G) (pkg : List String) (s : σ) :
    (List R × Option Err) × σ × List Event :=
  getResultLoop w gp testPackages [] s

/-- Lines 126-137 of `initGopath`: everything after `testGopath` is set. -/
def initGopathRest (w : World σ G Gr D R B) (pkg : List String) (testGopath : String) (s : σ) :
    (G × Option Err) × σ × List Event :=
  match w.newGopath testGopath s with
  | ((gp, some err), s1) => ((gp, some err), s1, [⟨126, .newGopath testGopath, false⟩])
  | ((gp, none), s1) =>
    match w.cleanPkg gp s1 with
    | (some err, s2) =>
      ((gp, some err), s2, [⟨126, .newGopath testGopath, true⟩, ⟨130, .cleanPkg, false⟩])
    | (none, s2) =>
      match w.goGet gp pkg s2 with
      | (some err, s3) =>
        ((gp, some err), s3,
          [⟨126, .newGopath testGopath, true⟩, ⟨130, .cleanPkg, true⟩, ⟨134, .goGet pkg, false⟩])
      | (none, s3) =>
        ((gp, none), s3,
          [⟨126, .newGopath testGopath, true⟩, ⟨130, .cleanPkg, true⟩, ⟨134, .goGet pkg, true⟩])

/-- `initGopath` (lines 114-138).  In the branch that creates a temporary
directory, `defer os.RemoveAll(tg)` is registered at line 123 and therefore
runs whenever `initGopath` itself returns after that point. -/
def initGopath (w : World σ G Gr D R B) (pkg : List String) (s : σ) :
    (G × Option Err) × σ × List Event :=
  let tg := w.getenv "TEST_GOPATH" s
  if tg ≠ "" then
    let r := initGopathRest w pkg tg s
    (r.1, r.2.1, ⟨116, .getenv "TEST_GOPATH", true⟩ :: r.2.2)
  else
    match w.tempDir "" "report-gopath-" s with
    | ((_, some err), s1) =>
      ((w.zeroGopath, some err), s1,
        [⟨116, .getenv "TEST_GOPATH", true⟩, ⟨119, .tempDir "" "report-gopath-", false⟩])
    | ((tg, none), s1) =>
      let r := initGopathRest w pkg tg s1
      let d := w.removeAll tg r.2.1
      (r.1, d.2,
        [⟨116, .getenv "TEST_GOPATH", true⟩, ⟨119, .tempDir "" "report-gopath-", true⟩]
          ++ r.2.2 ++ [⟨123, .removeAll tg, d.1.isNone⟩])

/-- The title written at line 98: `"# %s %d, %d Report\n\n"` with month, day,
year. -/
def titleText (date : Date) : String :=
  "# " ++ date.month.String ++ " " ++ fmtInt date.day ++ ", " ++ fmtInt date.year ++ " Report\n\n"

/-- The line written at line 99: `"Number of commits: %d\n"`. -/
def commitsText (cnt : Int) : String :=
  "Number of commits: " ++ fmtInt cnt ++ "\n"

/-- `writeReport` (lines 91-112).  `osArgs` is the global `os.Args`, read at
line 92. -/
def writeReport (w : World σ G Gr D R B) (osArgs : List String) (name : String) (gr : Gr)
    (report : Report G D R B) (s : σ) : Outcome (Option Err) × σ × List Event :=
  match osArgs[1]?, osArgs[2]? with
  | some a1, some a2 =>
    match w.getGitLog gr a1 a2 s with
    | ((_, some err), s1) => (.fatal "get git log: %v" err, s1, [⟨92, .getGitLog a1 a2, false⟩])
    | ((gl, none), s1) =>
      let b : Bytes := []
      let date := w.now s1
      let b := b ++ bytesOf (titleText date)
      let b := b ++ bytesOf (commitsText gl.cnt)
      let b := b ++ bytesOf "\n"
      match w.reportBytes report with
      | (_, some err) =>
        (.returned (some err), s1,
          [⟨92, .getGitLog a1 a2, true⟩, ⟨97, .now, true⟩, ⟨101, .reportBytes, false⟩])
      | (bts, none) =>
        let b := b ++ bts
        let b := b ++ bytesOf "\n"
        let b := b ++ bytesOf "## GIT Log\n\n"
        let b := b ++ bytesOf "```\n"
        let b := b ++ gl.log
        let b := b ++ bytesOf "```"
        let r := w.writeFile name b 0o666 s1
        (.returned r.1, r.2,
          [⟨92, .getGitLog a1 a2, true⟩, ⟨97, .now, true⟩, ⟨101, .reportBytes, true⟩,
            ⟨111, .writeFile name b 0o666, r.1.isNone⟩])
  | _, _ => (.panicked, s, [])

/-- `main` (lines 33-89).  `osArgs` is `os.Args`: with three elements the run
proceeds; with any other number `log.Fatalf` is called with `os.Args[0]`,
whose evaluation panics when `os.Args` is empty. -/
def main (w : World σ G Gr D R B) (osArgs : List String) (s : σ) :
    Outcome Unit × σ × List Event :=
  match osArgs with
  | [_, a1, a2] =>
    match initGopath w testPackages s with
    | ((_, some err), s1, t1) => (.fatal "Gopath init: %v" err, s1, t1)
    | ((gp, none), s1, t1) =>
      let g := w.newGoroot s1
      let gr := g.1
      let t2 := t1 ++ [⟨42, .newGoroot, true⟩]
      match w.switchRevision gr a1 g.2 with
      | ((_, some err), s3) =>
        (.fatal "Go switch revision: %v" err, s3, t2 ++ [⟨45, .switchRevision a1, false⟩])
      | ((oldDur, none), s3) =>
        let t3 := t2 ++ [⟨45, .switchRevision a1, true⟩]
        match getResult w gp testPackages s3 with
        | ((_, some err), s4, u4) => (.fatal "build report: %v" err, s4, t3 ++ u4)
        | ((oldResults, none), s4, u4) =>
          let t4 := t3 ++ u4
          match w.runBenchmark gp benchmark s4 with
          | ((_, some err), s5) =>
            (.fatal "benchmark run: %v" err, s5, t4 ++ [⟨54, .runBenchmark benchmark, false⟩])
          | ((oldBench, none), s5) =>
            let t5 := t4 ++ [⟨54, .runBenchmark benchmark, true⟩]
            let c := w.cleanPkg gp s5
            let t6 := t5 ++ [⟨59, .cleanPkg, c.1.isNone⟩]
            match w.switchRevision gr a2 c.2 with
            | ((_, some err), s7) =>
              (.fatal "Go switch revision: %v" err, s7, t6 ++ [⟨62, .switchRevision a2, false⟩])
            | ((newDur, none), s7) =>
              let t7 := t6 ++ [⟨62, .switchRevision a2, true⟩]
              match getResult w gp testPackages s7 with
              | ((_, some err), s8, u8) => (.fatal "build report: %v" err, s8, t7 ++ u8)
              | ((newResults, none), s8, u8) =>
                let t8 := t7 ++ u8
                match w.runBenchmark gp benchmark s8 with
                | ((_, some err), s9) =>
                  (.fatal "benchmark run: %v" err, s9,
                    t8 ++ [⟨71, .runBenchmark benchmark, false⟩])
                | ((newBench, none), s9) =>
                  let t9 := t8 ++ [⟨71, .runBenchmark benchmark, true⟩]
                  let report : Report G D R B :=
                    { gp := gp
                      oldGoCompileTime := oldDur
                      newGoCompileTime := newDur
                      oldResults := oldResults
                      newResults := newResults
                      oldBenchmark := oldBench
                      newBenchmark := newBench }
                  match writeReport w osArgs defaultReportName gr report s9 with
                  | (.returned (some err), s10, u10) =>
                    (.fatal "write report file: %v" err, s10, t9 ++ u10)
                  | (.returned none, s10, u10) => (.returned (), s10, t9 ++ u10)
                  | (.fatal f a, s10, u10) => (.fatal f a, s10, t9 ++ u10)
                  | (.panicked, s10, u10) => (.panicked, s10, t9 ++ u10)
  | a0 :: _ => (.fatal "Usage: %s <start> <end>" a0, s, [])
  | [] => (.panicked, s, [])

end Program

/-! ## Observations on traces -/

/-- The call is `ioutil.WriteFile`. -/
def Call.isWriteFile : Call → Bool
  | .writeFile _ _ _ => true
  | _ => false

/-- Some call of the trace is `ioutil.WriteFile`: the report file is written
(or its writing attempted). -/
def fileWritten (tr : List Event) : Bool := tr.any (fun e => e.call.isWriteFile)

/-- The bytes handed to `ioutil.WriteFile`, if the trace has such a call. -/
def documentOf : List Event → Option Bytes
  | [] => none
  | ⟨_, .writeFile _ data _, _⟩ :: _ => some data
  | _ :: rest => documentOf rest

/-- The lines whose calls `main` checks for an error before going on:
workspace initialization (119, 126, 130, 134), the two `switchRevision` calls
(45, 62), `RunTest` of either corpus pass (143), the two benchmark runs
(54, 71), `getGitLog` (92) and `report.Bytes` (101). -/
def checkedLines : List Nat := [119, 126, 130, 134, 45, 62, 143, 54, 71, 92, 101]

/-- The steps of a run as the orchestrator sequences them. -/
inductive Phase
  | init | switch | corpus | bench | clean | report
  deriving DecidableEq, Repr

/-- The step a call belongs to, by the statement of `main` it is made from
(or made under): lines 114-138 are `initGopath`, called at line 38; 45 and 62
are `switchRevision`; 143 is `RunTest` under `getResult` (lines 49, 66); 54
and 71 are `RunBenchmark`; 59 is `CleanPkg`; 91-112 are `writeReport`, called
at line 85.  Constructing the `goroot` handle (line 42) is none of the
steps. -/
def phaseOf (e : Event) : Option Phase :=
  if 114 ≤ e.line ∧ e.line ≤ 138 then some .init
  else if e.line = 45 ∨ e.line = 62 then some .switch
  else if e.line = 143 then some .corpus
  else if e.line = 54 ∨ e.line = 71 then some .bench
  else if e.line = 59 then some .clean
  else if 91 ≤ e.line ∧ e.line ≤ 112 then some .report
  else none

/-- Merge each run of equal adjacent entries into one. -/
def compress : List Phase → List Phase
  | [] => []
  | [a] => [a]
  | a :: b :: rest => if a = b then compress (b :: rest) else a :: compress (b :: rest)

/-- The sequence of steps a trace goes through. -/
def phases (tr : List Event) : List Phase := compress (tr.filterMap phaseOf)

/-- The event of a `RunTest` call at line 143. -/
def runTestEvent (ok : Bool) (pkg : String) : Event := ⟨143, .runTest pkg samplesCount, ok⟩

/-- The bytes `writeReport` has accumulated in its buffer when it reaches line
111, for the date read at line 97, the git log `gl` and the rendered body
`bts`. -/
def document (date : Date) (gl : GitLog) (bts : Bytes) : Bytes :=
  [] ++ bytesOf (titleText date) ++ bytesOf (commitsText gl.cnt) ++ bytesOf "\n" ++ bts ++
    bytesOf "\n" ++ bytesOf "## GIT Log\n\n" ++ bytesOf "```\n" ++ gl.log ++ bytesOf "```"

/-- The format strings of the `log.Fatalf` calls that follow a failed step. -/
def abortFormats : List String :=
  ["Gopath init: %v", "Go switch revision: %v", "build report: %v", "benchmark run: %v",
    "get git log: %v", "write report file: %v"]

section Runs

variable {σ G Gr D R B : Type}

/-- A run of `main` with revisions `a1`, `a2` that got as far as calling
`ioutil.WriteFile`: the results of the successive calls, each made in the
state the previous one left, and the result `res` of `main` (outcome, final
state, trace) they add up to. -/
def FullRun (w : World σ G Gr D R B) (a1 a2 : String) (s : σ)
    (res : Outcome Unit × σ × List Event) : Prop :=
  ∃ (gp : G) (s1 : σ) (t1 : List Event) (gr : Gr) (s2 : σ) (oldDur : D) (s3 : σ)
    (oldResults : List R) (s4 : σ) (oldBench : B) (s5 : σ) (c : Option Err) (s6 : σ)
    (newDur : D) (s7 : σ) (newResults : List R) (s8 : σ) (newBench : B) (s9 : σ)
    (gl : GitLog) (s10 : σ) (bts : Bytes) (werr : Option Err) (s11 : σ),
    initGopath w testPackages s = ((gp, none), s1, t1) ∧
    w.newGoroot s1 = (gr, s2) ∧
    w.switchRevision gr a1 s2 = ((oldDur, none), s3) ∧
    getResult w gp testPackages s3 =
      ((oldResults, none), s4, testPackages.map (runTestEvent true)) ∧
    w.runBenchmark gp benchmark s4 = ((oldBench, none), s5) ∧
    w.cleanPkg gp s5 = (c, s6) ∧
    w.switchRevision gr a2 s6 = ((newDur, none), s7) ∧
    getResult w gp testPackages s7 =
      ((newResults, none), s8, testPackages.map (runTestEvent true)) ∧
    w.runBenchmark gp benchmark s8 = ((newBench, none), s9) ∧
    w.getGitLog gr a1 a2 s9 = ((gl, none), s10) ∧
    w.reportBytes ⟨gp, oldDur, newDur, oldResults, newResults, oldBench, newBench⟩ =
      (bts, none) ∧
    w.writeFile defaultReportName (document (w.now s10) gl bts) 438 s10 = (werr, s11) ∧
    res =
      ((match werr with
        | none => Outcome.returned ()
        | some e => Outcome.fatal "write report file: %v" e), s11,
        t1 ++ [⟨42, .newGoroot, true⟩, ⟨45, .switchRevision a1, true⟩] ++
          testPackages.map (runTestEvent true) ++
          [⟨54, .runBenchmark benchmark, true⟩, ⟨59, .cleanPkg, c.isNone⟩,
            ⟨62, .switchRevision a2, true⟩] ++
          testPackages.map (runTestEvent true) ++
          [⟨71, .runBenchmark benchmark, true⟩, ⟨92, .getGitLog a1 a2, true⟩, ⟨97, .now, true⟩,
            ⟨101, .reportBytes, true⟩,
            ⟨111, .writeFile defaultReportName (document (w.now s10) gl bts) 438,
              werr.isNone⟩])

end Runs

/-! ## The report body, as the spec describes it -/

/-- Modelled from the spec: a Benchmark Result, "a mapping from
serialization-library name to its measured metrics" (`report.go` and the type
of `RunBenchmark`'s result are not among the sources).  The mapping is given
by its entries in the order in which it happens to be iterated; two lists with
the same entries in different orders are the same mapping. -/
abbrev BenchmarkResult (M : Type) := List (String × M)

/-- Modelled from the spec: the wording of the three parts of the report body
that the spec names (a compile-time comparison of the old and new rebuild
duration, a comparison row per package, a comparison row per benchmark
library, the metrics of a library absent from a snapshot being `none` so that
it is flagged and not dropped).  The spec does not give their text, so it is a
parameter. -/
structure Layout (D R M : Type) where
  compileTime : D → D → Bytes
  packageRow : R → R → Bytes
  libraryRow : String → Option M → Option M → Bytes

/-- The code points of a name. -/
def codes (name : String) : List Nat := name.data.map Char.toNat

/-- Modelled from the spec: the fixed order of library names ("library/package
names must be sorted"): lexicographic by code point, which is the byte order
of Go's string comparison. -/
def nameLe (a b : String) : Prop := codes a ≤ codes b

instance nameLeDecidable : DecidableRel nameLe :=
  fun a b => inferInstanceAs (Decidable (codes a ≤ codes b))

/-- Modelled from the spec: the libraries of the benchmark comparison, those
of either snapshot, each once, sorted. -/
def libraryNames {M : Type} (old new : BenchmarkResult M) : List String :=
  List.insertionSort nameLe (old.map Prod.fst ++ new.map Prod.fst).dedup

/-- Modelled from the spec: `report.Bytes`, the body `Compose` produces from
the two snapshots (`report.go` is not among the sources): the compile-time
comparison, then the per-package comparison in registry order (the order of
the result sequences), then the benchmark comparison with one row per library
in sorted order.  It reads the rebuild durations, the package results and the
benchmark mappings, and nothing else. -/
def composeBody {G D R M : Type} (L : Layout D R M) : Renderer G D R (BenchmarkResult M) :=
  fun r =>
    (L.compileTime r.oldGoCompileTime r.newGoCompileTime ++
      (List.zipWith L.packageRow r.oldResults r.newResults).flatten ++
      ((libraryNames r.oldBenchmark r.newBenchmark).map
        (fun n => L.libraryRow n (r.oldBenchmark.lookup n) (r.newBenchmark.lookup n))).flatten,
      none)

/-! ## A concrete world

A small deterministic world on which the functions above can be evaluated: a
set of existing directories, the environment variable, and switches that make
one chosen call fail. -/

/-- What the simulated `RunTest` reports for a package: the package, the
revision it ran under, and whether its tests passed. -/
structure SimResult where
  pkg : String
  rev : String
  passed : Bool
  deriving DecidableEq, Repr

/-- The state of the simulated world. -/
structure Sim where
  testGopath : String
  dirs : List String
  rev : String
  cleans : Nat
  cleanFailsAt : Option Nat
  brokenPkg : Option String
  failingPkg : Option String
  brokenRev : Option String
  today : Date
  deriving DecidableEq, Repr

/-- The simulated collaborators.  `TempDir` creates `/tmp/report-gopath-1`,
`RemoveAll` deletes a directory, the n-th `CleanPkg` fails when
`cleanFailsAt = some n`, `RunTest` returns an error for `brokenPkg` and a
failed result (no error) for `failingPkg`, `switchRevision` fails for
`brokenRev` and otherwise takes 12 time units for revision `"old"` and 10 for
any other. -/
def simWorld : World Sim String Unit Nat SimResult String where
  getenv := fun key s => if key = "TEST_GOPATH" then s.testGopath else ""
  tempDir := fun dir pfx s =>
    (("/tmp/" ++ pfx ++ "1", none), { s with dirs := ("/tmp/" ++ pfx ++ "1") :: s.dirs })
  removeAll := fun path s => (none, { s with dirs := s.dirs.filter (fun d => d != path) })
  zeroGopath := ""
  newGopath := fun path s => ((path, none), s)
  cleanPkg := fun gp s =>
    (if s.cleanFailsAt = some (s.cleans + 1) then some "remove pkg: permission denied" else none,
      { s with cleans := s.cleans + 1 })
  goGet := fun gp pkg s => (none, s)
  newGoroot := fun s => ((), s)
  switchRevision := fun gr rev s =>
    if s.brokenRev = some rev then ((0, some ("unknown revision " ++ rev)), s)
    else ((if rev = "old" then 12 else 10, none), { s with rev := rev })
  runTest := fun gp pkg count s =>
    ((⟨pkg, s.rev, s.failingPkg != some pkg⟩,
      if s.brokenPkg = some pkg then some ("cannot run " ++ pkg) else none), s)
  runBenchmark := fun gp name s => ((s.rev, none), s)
  getGitLog := fun gr a b s => ((⟨7, bytesOf (a ++ ".." ++ b ++ "\n")⟩, none), s)
  now := fun s => s.today
  reportBytes := fun r =>
    (bytesOf (String.intercalate "," (r.oldResults.map (fun x => x.rev))), none)
  writeFile := fun name data perm s => (none, s)

/-- A simulated start state: no workspace override, nothing fails. -/
def sim0 : Sim :=
  { testGopath := "", dirs := [], rev := "", cleans := 0, cleanFailsAt := none,
    brokenPkg := none, failingPkg := none, brokenRev := none, today := ⟨2016, .March, 5⟩ }

/-- A start state in which the tests of `github.com/coreos/etcd` fail and
`RunTest` cannot run `github.com/gogits/gogs`. -/
def simBroken : Sim :=
  { sim0 with
    failingPkg := some "github.com/coreos/etcd"
    brokenPkg := some "github.com/gogits/gogs" }

/-- A start state in which the second `CleanPkg` call, the one of line 59,
fails. -/
def simCleanFails : Sim := { sim0 with cleanFailsAt := some 2 }

/-- A start state in which revision `"new"` cannot be switched to. -/
def simBadRev : Sim := { sim0 with brokenRev := some "new" }

/-- The start state `sim0` a day later in the calendar. -/
def simLater : Sim := { sim0 with today := ⟨2016, .April, 1⟩ }

/-- A report value of the concrete world: one package, passing under both
revisions. -/
def simReport : Report String Nat SimResult String :=
  { gp := "/w", oldGoCompileTime := 12, newGoCompileTime := 10,
    oldResults := [⟨"pkgA", "old", true⟩], newResults := [⟨"pkgA", "new", true⟩],
    oldBenchmark := "old", newBenchmark := "new" }

/-- A wording for the parts of the body, for the concrete world. -/
def simLayout : Layout Nat SimResult Nat where
  compileTime := fun o n => bytesOf ("compile: " ++ toString o ++ " -> " ++ toString n ++ "\n")
  packageRow := fun o n =>
    bytesOf (o.pkg ++ ": " ++ toString o.passed ++ " -> " ++ toString n.passed ++ "\n")
  libraryRow := fun name o n =>
    bytesOf (name ++ ": " ++
      (match o with
        | some x => toString x
        | none => "absent") ++ " -> " ++
      (match n with
        | some x => toString x
        | none => "absent") ++ "\n")

/-- The concrete world with benchmark results that are mappings and the body
rendered by `composeBody`. -/
def specWorld : World Sim String Unit Nat SimResult (BenchmarkResult Nat) where
  getenv := simWorld.getenv
  tempDir := simWorld.tempDir
  removeAll := simWorld.removeAll
  zeroGopath := simWorld.zeroGopath
  newGopath := simWorld.newGopath
  cleanPkg := simWorld.cleanPkg
  goGet := simWorld.goGet
  newGoroot := simWorld.newGoroot
  switchRevision := simWorld.switchRevision
  runTest := simWorld.runTest
  runBenchmark := fun gp name s =>
    (([("libX", if s.rev = "old" then 100 else 90), ("libA", 7)], none), s)
  getGitLog := simWorld.getGitLog
  now := simWorld.now
  reportBytes := composeBody simLayout
  writeFile := simWorld.writeFile

/-- A report of the concrete world: workspace `/w`, the old benchmark mapping
iterated as `libX`, `libA`, a library `libY` only in the new one. -/
def specReport1 : Report String Nat SimResult (BenchmarkResult Nat) :=
  { gp := "/w", oldGoCompileTime := 12, newGoCompileTime := 10,
    oldResults := [⟨"pkgA", "old", true⟩, ⟨"pkgB", "old", false⟩],
    newResults := [⟨"pkgA", "new", true⟩, ⟨"pkgB", "new", true⟩],
    oldBenchmark := [("libX", 100), ("libA", 7)],
    newBenchmark := [("libY", 3), ("libX", 90), ("libA", 7)] }

/-- The same snapshots in another workspace, the mappings iterated in another
order. -/
def specReport2 : Report String Nat SimResult (BenchmarkResult Nat) :=
  { gp := "/tmp/report-gopath-1", oldGoCompileTime := 12, newGoCompileTime := 10,
    oldResults := [⟨"pkgA", "old", true⟩, ⟨"pkgB", "old", false⟩],
    newResults := [⟨"pkgA", "new", true⟩, ⟨"pkgB", "new", true⟩],
    oldBenchmark := [("libA", 7), ("libX", 100)],
    newBenchmark := [("libA", 7), ("libY", 3), ("libX", 90)] }

/-! ## The corpus pass -/

section CorpusPass

variable {σ G Gr D R B : Type}

theorem getResultLoop_append (w : World σ G Gr D R B) (gp : G) (pre post : List String) :
    ∀ (acc rs : List R) (s s1 : σ) (t1 : List Event),
      getResultLoop w gp pre acc s = ((rs, none), s1, t1) →
      getResultLoop w gp (pre ++ post) acc s =
        ((getResultLoop w gp post rs s1).1, (getResultLoop w gp post rs s1).2.1,
          t1 ++ (getResultLoop w gp post rs s1).2.2) := by
  induction pre with
  | nil =>
    intro acc rs s s1 t1 h
    simp only [getResultLoop, Prod.mk.injEq, and_true] at h
    obtain ⟨h1, h2, h3⟩ := h
    subst h1 h2 h3
    simp
  | cons p pre ih =>
    intro acc rs s s1 t1 h
    rcases hr : w.runTest gp p samplesCount s with ⟨⟨res, _ | err⟩, s2⟩
    · simp only [getResultLoop, hr] at h
      rcases hk : getResultLoop w gp pre (acc ++ [res]) s2 with ⟨⟨rs2, e2⟩, s3, t3⟩
      rw [hk] at h
      simp only [Prod.mk.injEq] at h
      obtain ⟨⟨h1, h2⟩, h3, h4⟩ := h
      subst h1 h2 h3 h4
      have := ih (acc ++ [res]) rs2 s2 s3 t3 hk
      have e : (p :: pre) ++ post = p :: (pre ++ post) := rfl
      rw [e, getResultLoop]
      simp only [hr]
      rw [this]
      rfl
    · simp [getResultLoop, hr] at h

theorem getResultLoop_ok (w : World σ G Gr D R B) (gp : G) (pkgs : List String) :
    ∀ (acc rs : List R) (s s1 : σ) (t1 : List Event),
      getResultLoop w gp pkgs acc s = ((rs, none), s1, t1) →
      t1 = pkgs.map (runTestEvent true) ∧ rs.length = acc.length + pkgs.length := by
  induction pkgs with
  | nil =>
    intro acc rs s s1 t1 h
    simp only [getResultLoop, Prod.mk.injEq, and_true] at h
    obtain ⟨h1, h2, h3⟩ := h
    subst h1 h2 h3
    simp
  | cons p pkgs ih =>
    intro acc rs s s1 t1 h
    rcases hr : w.runTest gp p samplesCount s with ⟨⟨res, _ | err⟩, s2⟩
    · simp only [getResultLoop, hr] at h
      rcases hk : getResultLoop w gp pkgs (acc ++ [res]) s2 with ⟨⟨rs2, e2⟩, s3, t3⟩
      rw [hk] at h
      simp only [Prod.mk.injEq] at h
      obtain ⟨⟨h1, h2⟩, h3, h4⟩ := h
      subst h1 h2 h3 h4
      obtain ⟨h5, h6⟩ := ih (acc ++ [res]) rs2 s2 s3 t3 hk
      subst h5
      simp only [List.map_cons, runTestEvent, true_and]
      simp only [List.length_append, List.length_singleton] at h6
      simp only [List.length_cons]
      omega
    · simp [getResultLoop, hr] at h

theorem getResultLoop_lines (w : World σ G Gr D R B) (gp : G) (pkgs : List String) :
    ∀ (acc : List R) (s : σ), ∀ e ∈ (getResultLoop w gp pkgs acc s).2.2,
      e.line = 143 ∧ e.call.isWriteFile = false := by
  induction pkgs with
  | nil => intro acc s e he; simp [getResultLoop] at he
  | cons p pkgs ih =>
    intro acc s e he
    rcases hr : w.runTest gp p samplesCount s with ⟨⟨res, _ | err⟩, s2⟩
    · simp only [getResultLoop, hr, List.mem_cons] at he
      rcases he with he | he
      · subst he; simp [Call.isWriteFile]
      · exact ih _ _ e he
    · simp only [getResultLoop, hr, List.mem_singleton] at he
      subst he; simp [Call.isWriteFile]

/-- C5: a corpus pass stops at the first `RunTest` error.  Let the packages in
iteration order be `pre ++ p :: post` and let the pass over `pre` have gone
through without error (every event of `pre` is a successful call), leaving the
results `rs`.  If `RunTest` for `p` then returns an error `e`, `getResult`
returns `e` with a nil result slice, and its calls are exactly those for `pre`
and the failing one for `p`: none for `post`.  If instead it returns a result
`r` and no error, whatever `r` says about the tests, the pass goes on with
`post`, `r` appended to the results. -/
theorem getResult_stops_at_first_error (w : World σ G Gr D R B) (gp : G) (pkg : List String)
    (s s1 : σ) (pre post : List String) (p : String) (rs : List R) (t1 : List Event)
    (hsplit : testPackages = pre ++ p :: post)
    (hpre : getResultLoop w gp pre [] s = ((rs, none), s1, t1)) :
    t1 = pre.map (runTestEvent true) ∧ rs.length = pre.length ∧
    (∀ r e s2, w.runTest gp p samplesCount s1 = ((r, some e), s2) →
      getResult w gp pkg s =
        (([], some e), s2, pre.map (runTestEvent true) ++ [runTestEvent false p])) ∧
    (∀ r s2, w.runTest gp p samplesCount s1 = ((r, none), s2) →
      getResult w gp pkg s =
        ((getResultLoop w gp post (rs ++ [r]) s2).1, (getResultLoop w gp post (rs ++ [r]) s2).2.1,
          pre.map (runTestEvent true) ++
            runTestEvent true p :: (getResultLoop w gp post (rs ++ [r]) s2).2.2)) := by
  obtain ⟨ht, hlen⟩ := getResultLoop_ok w gp pre [] rs s s1 t1 hpre
  have happ := getResultLoop_append w gp pre (p :: post) [] rs s s1 t1 hpre
  refine ⟨ht, by simpa using hlen, ?_, ?_⟩
  · intro r e s2 hr
    unfold getResult
    rw [hsplit, happ, ht]
    simp [getResultLoop, hr, runTestEvent]
  · intro r s2 hr
    unfold getResult
    rw [hsplit, happ, ht]
    simp [getResultLoop, hr, runTestEvent]

end CorpusPass

/-- C5 on the concrete world: the first package passes, the second fails its
tests (a result, no error), the third cannot be run: the pass returns that
error and nil after exactly three `RunTest` calls. -/
theorem getResult_stops_at_first_error_witness :
    testPackages = ["github.com/boltdb/bolt/cmd/bolt", "github.com/coreos/etcd"] ++
      "github.com/gogits/gogs" :: testPackages.drop 3 ∧
    getResultLoop simWorld "/w" ["github.com/boltdb/bolt/cmd/bolt", "github.com/coreos/etcd"] []
        simBroken =
      (([⟨"github.com/boltdb/bolt/cmd/bolt", "", true⟩, ⟨"github.com/coreos/etcd", "", false⟩],
        none), simBroken,
        [runTestEvent true "github.com/boltdb/bolt/cmd/bolt",
          runTestEvent true "github.com/coreos/etcd"]) ∧
    getResult simWorld "/w" testPackages simBroken =
      (([], some "cannot run github.com/gogits/gogs"), simBroken,
        [runTestEvent true "github.com/boltdb/bolt/cmd/bolt",
          runTestEvent true "github.com/coreos/etcd",
          runTestEvent false "github.com/gogits/gogs"]) :=
  ⟨by decide, by decide,
    (getResult_stops_at_first_error simWorld "/w" testPackages simBroken simBroken
      ["github.com/boltdb/bolt/cmd/bolt", "github.com/coreos/etcd"] (testPackages.drop 3)
      "github.com/gogits/gogs"
      [⟨"github.com/boltdb/bolt/cmd/bolt", "", true⟩, ⟨"github.com/coreos/etcd", "", false⟩]
      [runTestEvent true "github.com/boltdb/bolt/cmd/bolt",
        runTestEvent true "github.com/coreos/etcd"]
      (by decide) (by decide)).2.2.1
      ⟨"github.com/gogits/gogs", "", true⟩ "cannot run github.com/gogits/gogs" simBroken
      (by decide)⟩

/-- C1 at a concrete input: called with the one-element list
`["example.org/only"]`, `getResult` does not return one result for that
package; it returns twelve, one for each entry of `testPackages`, and `RunTest`
is never invoked for the package passed. -/
theorem getResult_ignores_pkg :
    ((getResult simWorld "/w" ["example.org/only"] sim0).1.1.map (fun r => r.pkg) = testPackages) ∧
    (getResult simWorld "/w" ["example.org/only"] sim0).1.2 = none ∧
    (getResult simWorld "/w" ["example.org/only"] sim0).1.1.length = 12 ∧
    (getResult simWorld "/w" ["example.org/only"] sim0).1.1.length ≠ ["example.org/only"].length ∧
    runTestEvent true "example.org/only" ∉ (getResult simWorld "/w" ["example.org/only"] sim0).2.2 := by
  decide

/-! ## Workspace initialization -/

section Init

variable {σ G Gr D R B : Type}

theorem fileWritten_append (a b : List Event) :
    fileWritten (a ++ b) = (fileWritten a || fileWritten b) := by
  simp [fileWritten, List.any_append]

theorem fileWritten_nil : fileWritten [] = false := rfl

theorem fileWritten_cons (e : Event) (tr : List Event) :
    fileWritten (e :: tr) = (e.call.isWriteFile || fileWritten tr) := by
  simp [fileWritten]

theorem fileWritten_false_iff (tr : List Event) :
    fileWritten tr = false ↔ ∀ e ∈ tr, e.call.isWriteFile = false := by
  simp [fileWritten]

theorem initGopathRest_events (w : World σ G Gr D R B) (pkg : List String) (tg : String) (s : σ) :
    ∀ e ∈ (initGopathRest w pkg tg s).2.2,
      (126 ≤ e.line ∧ e.line ≤ 134) ∧ e.call.isWriteFile = false ∧
        ((initGopathRest w pkg tg s).1.2 = none → e.ok = true) := by
  intro e he
  unfold initGopathRest at he ⊢
  rcases h1 : w.newGopath tg s with ⟨⟨gp, _ | err⟩, s1⟩
  · rcases h2 : w.cleanPkg gp s1 with ⟨_ | err, s2⟩
    · rcases h3 : w.goGet gp pkg s2 with ⟨_ | err, s3⟩
      · simp only [h1, h2, h3, List.mem_cons, List.mem_singleton, List.not_mem_nil, or_false] at he ⊢
        rcases he with he | he | he <;> subst he <;> simp [Call.isWriteFile]
      · simp only [h1, h2, h3, List.mem_cons, List.mem_singleton, List.not_mem_nil, or_false] at he ⊢
        rcases he with he | he | he <;> subst he <;> simp [Call.isWriteFile]
    · simp only [h1, h2, List.mem_cons, List.mem_singleton, List.not_mem_nil, or_false] at he ⊢
      rcases he with he | he <;> subst he <;> simp [Call.isWriteFile]
  · simp only [h1, List.mem_cons, List.mem_singleton, List.not_mem_nil, or_false] at he ⊢
    subst he; simp [Call.isWriteFile]

theorem initGopath_events (w : World σ G Gr D R B) (pkg : List String) (s : σ) :
    (initGopath w pkg s).2.2 ≠ [] ∧
    ∀ e ∈ (initGopath w pkg s).2.2,
      (114 ≤ e.line ∧ e.line ≤ 138) ∧ e.call.isWriteFile = false ∧
        ((initGopath w pkg s).1.2 = none → e.ok = false → e.line = 123) := by
  unfold initGopath
  dsimp only
  by_cases htg : w.getenv "TEST_GOPATH" s ≠ ""
  · rw [if_pos htg]
    refine ⟨by simp, ?_⟩
    intro e he
    simp only [List.mem_cons] at he
    rcases he with he | he
    · subst he; simp [Call.isWriteFile]
    · obtain ⟨h1, h2, h3⟩ := initGopathRest_events w pkg _ s e he
      refine ⟨by omega, h2, ?_⟩
      intro hn hf
      rw [h3 hn] at hf
      exact absurd hf (by simp)
  · rw [if_neg htg]
    rcases h1 : w.tempDir "" "report-gopath-" s with ⟨⟨tg, _ | err⟩, s1⟩
    · simp only
      refine ⟨by simp, ?_⟩
      intro e he
      simp only [List.mem_append, List.mem_cons, List.mem_singleton, List.not_mem_nil,
        or_false] at he
      rcases he with ((he | he) | he) | he
      · subst he; simp [Call.isWriteFile]
      · subst he; simp [Call.isWriteFile]
      · obtain ⟨h1, h2, h3⟩ := initGopathRest_events w pkg _ s1 e he
        refine ⟨by omega, h2, ?_⟩
        intro hn hf
        rw [h3 hn] at hf
        exact absurd hf (by simp)
      · subst he; simp [Call.isWriteFile]
    · simp only
      refine ⟨by simp, ?_⟩
      intro e he
      simp only [List.mem_cons, List.mem_singleton, List.not_mem_nil, or_false] at he
      rcases he with he | he <;> subst he <;> simp [Call.isWriteFile]

theorem initGopath_not_written (w : World σ G Gr D R B) (pkg : List String) (s s1 : σ)
    (r : G × Option Err) (t1 : List Event) (h : initGopath w pkg s = (r, s1, t1)) :
    fileWritten t1 = false := by
  rw [fileWritten_false_iff]
  intro e he
  have := (initGopath_events w pkg s).2 e (by rw [h]; exact he)
  exact this.2.1

theorem getResult_not_written (w : World σ G Gr D R B) (gp : G) (pkg : List String) (s s1 : σ)
    (r : List R × Option Err) (t1 : List Event) (h : getResult w gp pkg s = (r, s1, t1)) :
    fileWritten t1 = false := by
  rw [fileWritten_false_iff]
  intro e he
  have := getResultLoop_lines w gp testPackages [] s e (by unfold getResult at h; rw [h]; exact he)
  exact this.2

theorem getResult_ok_trace (w : World σ G Gr D R B) (gp : G) (pkg : List String) (s s1 : σ)
    (rs : List R) (t1 : List Event) (h : getResult w gp pkg s = ((rs, none), s1, t1)) :
    t1 = testPackages.map (runTestEvent true) ∧ rs.length = testPackages.length := by
  have := getResultLoop_ok w gp testPackages [] rs s s1 t1 h
  simpa using this

theorem initGopathRest_ok_trace (w : World σ G Gr D R B) (pkg : List String) (tg : String)
    (s s1 : σ) (gp : G) (t : List Event)
    (h : initGopathRest w pkg tg s = ((gp, none), s1, t)) :
    t = [⟨126, .newGopath tg, true⟩, ⟨130, .cleanPkg, true⟩, ⟨134, .goGet pkg, true⟩] := by
  unfold initGopathRest at h
  rcases h1 : w.newGopath tg s with ⟨⟨gp1, _ | err⟩, s2⟩
  · rcases h2 : w.cleanPkg gp1 s2 with ⟨_ | err, s3⟩
    · rcases h3 : w.goGet gp1 pkg s3 with ⟨_ | err, s4⟩
      · simp only [h1, h2, h3, Prod.mk.injEq] at h
        exact h.2.2.symm
      · simp [h1, h2, h3] at h
    · simp [h1, h2] at h
  · simp [h1] at h

theorem initGopath_ok_trace (w : World σ G Gr D R B) (pkg : List String) (s s1 : σ) (gp : G)
    (t1 : List Event) (h : initGopath w pkg s = ((gp, none), s1, t1)) :
    (w.getenv "TEST_GOPATH" s ≠ "" ∧
      t1 = [⟨116, .getenv "TEST_GOPATH", true⟩,
        ⟨126, .newGopath (w.getenv "TEST_GOPATH" s), true⟩, ⟨130, .cleanPkg, true⟩,
        ⟨134, .goGet pkg, true⟩]) ∨
    (w.getenv "TEST_GOPATH" s = "" ∧ ∃ (tg : String) (removed : Bool),
      t1 = [⟨116, .getenv "TEST_GOPATH", true⟩, ⟨119, .tempDir "" "report-gopath-", true⟩,
        ⟨126, .newGopath tg, true⟩, ⟨130, .cleanPkg, true⟩, ⟨134, .goGet pkg, true⟩,
        ⟨123, .removeAll tg, removed⟩]) := by
  unfold initGopath at h
  dsimp only at h
  by_cases htg : w.getenv "TEST_GOPATH" s ≠ ""
  · rw [if_pos htg] at h
    left
    refine ⟨htg, ?_⟩
    rcases hr : initGopathRest w pkg (w.getenv "TEST_GOPATH" s) s with ⟨⟨gp2, e2⟩, s2, t2⟩
    rw [hr] at h
    simp only [Prod.mk.injEq] at h
    obtain ⟨⟨hg, he⟩, hs, ht⟩ := h
    subst hg he hs ht
    rw [initGopathRest_ok_trace w pkg _ s _ _ _ hr]
  · rw [if_neg htg] at h
    right
    refine ⟨not_not.mp htg, ?_⟩
    rcases hd : w.tempDir "" "report-gopath-" s with ⟨⟨tg, _ | err⟩, s2⟩
    · rw [hd] at h
      dsimp only at h
      rcases hr : initGopathRest w pkg tg s2 with ⟨⟨gp2, e2⟩, s3, t3⟩
      rw [hr] at h
      simp only [Prod.mk.injEq] at h
      obtain ⟨⟨hg, he⟩, hs, ht⟩ := h
      subst hg he ht
      rw [initGopathRest_ok_trace w pkg _ s2 _ _ _ hr]
      exact ⟨tg, _, rfl⟩
    · rw [hd] at h
      simp at h

end Init

/-! ## Report writing -/

section WriteReport

variable {σ G Gr D R B : Type}

theorem writeReport_ok (w : World σ G Gr D R B) (osArgs : List String) (name : String) (gr : Gr)
    (report : Report G D R B) (s s1 : σ) (a1 a2 : String) (gl : GitLog) (bts : Bytes)
    (h1 : osArgs[1]? = some a1) (h2 : osArgs[2]? = some a2)
    (hg : w.getGitLog gr a1 a2 s = ((gl, none), s1))
    (hb : w.reportBytes report = (bts, none)) :
    writeReport w osArgs name gr report s =
      (.returned (w.writeFile name (document (w.now s1) gl bts) 438 s1).1,
        (w.writeFile name (document (w.now s1) gl bts) 438 s1).2,
        [⟨92, .getGitLog a1 a2, true⟩, ⟨97, .now, true⟩, ⟨101, .reportBytes, true⟩,
          ⟨111, .writeFile name (document (w.now s1) gl bts) 438,
            (w.writeFile name (document (w.now s1) gl bts) 438 s1).1.isNone⟩]) := by
  unfold writeReport
  simp only [h1, h2, hg, hb]
  rfl

theorem writeReport_render_error (w : World σ G Gr D R B) (osArgs : List String) (name : String)
    (gr : Gr) (report : Report G D R B) (s s1 : σ) (a1 a2 : String) (gl : GitLog) (bts : Bytes)
    (err : Err) (h1 : osArgs[1]? = some a1) (h2 : osArgs[2]? = some a2)
    (hg : w.getGitLog gr a1 a2 s = ((gl, none), s1))
    (hb : w.reportBytes report = (bts, some err)) :
    writeReport w osArgs name gr report s =
      (.returned (some err), s1,
        [⟨92, .getGitLog a1 a2, true⟩, ⟨97, .now, true⟩, ⟨101, .reportBytes, false⟩]) := by
  unfold writeReport
  simp only [h1, h2, hg, hb]

theorem writeReport_log_error (w : World σ G Gr D R B) (osArgs : List String) (name : String)
    (gr : Gr) (report : Report G D R B) (s s1 : σ) (a1 a2 : String) (gl : GitLog)
    (err : Err) (h1 : osArgs[1]? = some a1) (h2 : osArgs[2]? = some a2)
    (hg : w.getGitLog gr a1 a2 s = ((gl, some err), s1)) :
    writeReport w osArgs name gr report s =
      (.fatal "get git log: %v" err, s1, [⟨92, .getGitLog a1 a2, false⟩]) := by
  unfold writeReport
  simp only [h1, h2, hg]

end WriteReport

/-! ## The orchestrator -/

section Main

variable {σ G Gr D R B : Type}

/-- Every run with three elements in `os.Args` either stops in a `log.Fatalf`
after a failed step, without any call of `ioutil.WriteFile`, or is a full
run. -/
theorem main_inv (w : World σ G Gr D R B) (a0 a1 a2 : String) (s : σ) :
    (fileWritten (main w [a0, a1, a2] s).2.2 = false ∧
      ∃ f e, (main w [a0, a1, a2] s).1 = .fatal f e ∧ f ∈ abortFormats) ∨
    FullRun w a1 a2 s (main w [a0, a1, a2] s) := by
  rcases h1 : initGopath w testPackages s with ⟨⟨gp, _ | err⟩, s1, t1⟩
  swap
  · left
    have hw := initGopath_not_written w _ _ _ _ _ h1
    simp [main, h1, hw, abortFormats]
  have hw1 := initGopath_not_written w _ _ _ _ _ h1
  rcases h2 : w.newGoroot s1 with ⟨gr, s2⟩
  rcases h3 : w.switchRevision gr a1 s2 with ⟨⟨oldDur, _ | err⟩, s3⟩
  swap
  · left
    simp [main, h1, h2, h3, hw1, abortFormats, fileWritten_append, fileWritten_cons,
      fileWritten_nil, Call.isWriteFile]
  rcases h4 : getResult w gp testPackages s3 with ⟨⟨oldResults, _ | err⟩, s4, u4⟩
  swap
  · left
    have hw4 := getResult_not_written w _ _ _ _ _ _ h4
    simp [main, h1, h2, h3, h4, hw1, hw4, abortFormats, fileWritten_append, fileWritten_cons,
      fileWritten_nil, Call.isWriteFile]
  have hw4 := getResult_not_written w _ _ _ _ _ _ h4
  obtain ⟨hu4, -⟩ := getResult_ok_trace w _ _ _ _ _ _ h4
  subst hu4
  rcases h5 : w.runBenchmark gp benchmark s4 with ⟨⟨oldBench, _ | err⟩, s5⟩
  swap
  · left
    simp [main, h1, h2, h3, h4, h5, hw1, hw4, abortFormats, fileWritten_append, fileWritten_cons,
      fileWritten_nil, Call.isWriteFile]
  rcases h6 : w.cleanPkg gp s5 with ⟨c, s6⟩
  rcases h7 : w.switchRevision gr a2 s6 with ⟨⟨newDur, _ | err⟩, s7⟩
  swap
  · left
    simp [main, h1, h2, h3, h4, h5, h6, h7, hw1, hw4, abortFormats, fileWritten_append,
      fileWritten_cons, fileWritten_nil, Call.isWriteFile]
  rcases h8 : getResult w gp testPackages s7 with ⟨⟨newResults, _ | err⟩, s8, u8⟩
  swap
  · left
    have hw8 := getResult_not_written w _ _ _ _ _ _ h8
    simp [main, h1, h2, h3, h4, h5, h6, h7, h8, hw1, hw4, hw8, abortFormats, fileWritten_append,
      fileWritten_cons, fileWritten_nil, Call.isWriteFile]
  have hw8 := getResult_not_written w _ _ _ _ _ _ h8
  obtain ⟨hu8, -⟩ := getResult_ok_trace w _ _ _ _ _ _ h8
  subst hu8
  rcases h9 : w.runBenchmark gp benchmark s8 with ⟨⟨newBench, _ | err⟩, s9⟩
  swap
  · left
    simp [main, h1, h2, h3, h4, h5, h6, h7, h8, h9, hw1, hw4, abortFormats, fileWritten_append,
      fileWritten_cons, fileWritten_nil, Call.isWriteFile]
  have ha1 : [a0, a1, a2][1]? = some a1 := rfl
  have ha2 : [a0, a1, a2][2]? = some a2 := rfl
  rcases h10 : w.getGitLog gr a1 a2 s9 with ⟨⟨gl, _ | err⟩, s10⟩
  swap
  · left
    have hwr := writeReport_log_error w [a0, a1, a2] defaultReportName gr
      ⟨gp, oldDur, newDur, oldResults, newResults, oldBench, newBench⟩ s9 s10 a1 a2 gl err
      ha1 ha2 h10
    simp [main, h1, h2, h3, h4, h5, h6, h7, h8, h9, hwr, hw1, hw4, abortFormats,
      fileWritten_append, fileWritten_cons, fileWritten_nil, Call.isWriteFile]
  rcases h11 : w.reportBytes ⟨gp, oldDur, newDur, oldResults, newResults, oldBench, newBench⟩
    with ⟨bts, _ | err⟩
  swap
  · left
    have hwr := writeReport_render_error w [a0, a1, a2] defaultReportName gr
      ⟨gp, oldDur, newDur, oldResults, newResults, oldBench, newBench⟩ s9 s10 a1 a2 gl bts err
      ha1 ha2 h10 h11
    simp [main, h1, h2, h3, h4, h5, h6, h7, h8, h9, hwr, hw1, hw4, abortFormats,
      fileWritten_append, fileWritten_cons, fileWritten_nil, Call.isWriteFile]
  right
  have hwr := writeReport_ok w [a0, a1, a2] defaultReportName gr
    ⟨gp, oldDur, newDur, oldResults, newResults, oldBench, newBench⟩ s9 s10 a1 a2 gl bts
    ha1 ha2 h10 h11
  rcases h12 : w.writeFile defaultReportName (document (w.now s10) gl bts) 438 s10 with ⟨werr, s11⟩
  rw [h12] at hwr
  refine ⟨gp, s1, t1, gr, s2, oldDur, s3, oldResults, s4, oldBench, s5, c, s6, newDur, s7,
    newResults, s8, newBench, s9, gl, s10, bts, werr, s11, h1, h2, h3, h4, h5, h6, h7, h8, h9,
    h10, h11, h12, ?_⟩
  cases werr <;> simp [main, h1, h2, h3, h4, h5, h6, h7, h8, h9, hwr]

theorem main_args (w : World σ G Gr D R B) (osArgs : List String) (s : σ) :
    (∃ a0 a1 a2, osArgs = [a0, a1, a2]) ∨
    ((main w osArgs s).2.2 = [] ∧ (main w osArgs s).2.1 = s ∧
      (main w osArgs s).1.status ≠ 0) := by
  rcases osArgs with _ | ⟨a0, _ | ⟨a1, _ | ⟨a2, _ | ⟨a3, rest⟩⟩⟩⟩
  · right; simp [main, Outcome.status]
  · right; simp [main, Outcome.status]
  · right; simp [main, Outcome.status]
  · left; exact ⟨a0, a1, a2, rfl⟩
  · right; simp [main, Outcome.status]

/-- C2: if, in a run of `main`, a call of workspace initialization (lines 119,
126, 130, 134), a `switchRevision` call (45, 62), a `RunTest` call of either
corpus pass (143), a benchmark run (54, 71), the git-log extraction (92) or
the rendering of the report body (101) comes back with an error, then the
process ends with a non-zero status and `ioutil.WriteFile` is never called. -/
theorem main_failed_step_no_report (w : World σ G Gr D R B) (osArgs : List String) (s : σ)
    (ev : Event) (hev : ev ∈ (main w osArgs s).2.2) (hfail : ev.ok = false)
    (hline : ev.line ∈ checkedLines) :
    (main w osArgs s).1.status ≠ 0 ∧ fileWritten (main w osArgs s).2.2 = false := by
  rcases main_args w osArgs s with ⟨a0, a1, a2, rfl⟩ | ⟨hnil, -, -⟩
  swap
  · rw [hnil] at hev; simp at hev
  rcases main_inv w a0 a1 a2 s with ⟨hw, f, e, hout, -⟩ | hfull
  · exact ⟨by rw [hout]; simp [Outcome.status], hw⟩
  · exfalso
    obtain ⟨gp, s1, t1, gr, s2, oldDur, s3, oldResults, s4, oldBench, s5, c, s6, newDur, s7,
      newResults, s8, newBench, s9, gl, s10, bts, werr, s11, h1, -, -, -, -, -, -, -, -, -, -,
      -, hres⟩ := hfull
    rw [hres] at hev
    simp only [List.mem_append, List.mem_cons, List.mem_singleton, List.not_mem_nil, or_false,
      List.mem_map] at hev
    have hinit := (initGopath_events w testPackages s).2
    rw [h1] at hinit
    rcases hev with ((((h | h | h) | ⟨q, -, h⟩) | h | h | h) | ⟨q, -, h⟩) | h | h | h | h | h
    · have := (hinit ev h).2.2 rfl hfail
      rw [this] at hline
      simp [checkedLines] at hline
    all_goals first
      | (subst h; simp [runTestEvent] at hfail; done)
      | (subst h; simp [checkedLines] at hline; done)

/-- C9: when `os.Args` does not have exactly three elements (the number of
positional arguments is not two), `main` ends with a non-zero status in the
state it started in, without having made any call, and its outcome is the
usage error of line 35 for the program name `os.Args[0]`; with exactly three
elements the outcome is not the usage error. -/
theorem main_usage (w : World σ G Gr D R B) (osArgs : List String) (s : σ) :
    (osArgs.length ≠ 3 →
      (main w osArgs s).1.status ≠ 0 ∧ (main w osArgs s).2.1 = s ∧
        (main w osArgs s).2.2 = [] ∧
        ∀ prog args, osArgs = prog :: args →
          (main w osArgs s).1 = .fatal "Usage: %s <start> <end>" prog) ∧
    (osArgs.length = 3 → ∀ a, (main w osArgs s).1 ≠ .fatal "Usage: %s <start> <end>" a) := by
  constructor
  · intro hlen
    rcases osArgs with _ | ⟨a0, _ | ⟨a1, _ | ⟨a2, _ | ⟨a3, rest⟩⟩⟩⟩
    · simp [main, Outcome.status]
    · simp [main, Outcome.status]
    · simp [main, Outcome.status]
    · simp at hlen
    · simp [main, Outcome.status]
  · intro hlen a
    rcases osArgs with _ | ⟨a0, _ | ⟨a1, _ | ⟨a2, _ | ⟨a3, rest⟩⟩⟩⟩
    · simp at hlen
    · simp at hlen
    · simp at hlen
    · rcases main_inv w a0 a1 a2 s with ⟨-, f, e, hout, hf⟩ | hfull
      · rw [hout]
        intro h
        injection h with h1 h2
        subst h1
        revert hf
        decide
      · obtain ⟨gp, s1, t1, gr, s2, oldDur, s3, oldResults, s4, oldBench, s5, c, s6, newDur, s7,
          newResults, s8, newBench, s9, gl, s10, bts, werr, s11, -, -, -, -, -, -, -, -, -, -,
          -, -, hres⟩ := hfull
        rw [hres]
        cases werr with
        | none => simp
        | some e =>
          intro h
          injection h with h1 h2
          revert h1
          decide
    · simp at hlen

/-- C10: in a run of `main` that returns, `os.Args` is `[a0, a1, a2]` and the
report value handed to the renderer holds, as old rebuild duration, old
results and old benchmark, what `switchRevision a1` and the corpus pass and
benchmark run made right after it returned (before `CleanPkg` and
`switchRevision a2`), and as new ones what `switchRevision a2` and the pass
and run after it returned; the document written is composed from the
rendering of that report and the log `getGitLog a1 a2` returned. -/
theorem main_report_values (w : World σ G Gr D R B) (osArgs : List String) (s : σ)
    (hret : (main w osArgs s).1 = .returned ()) :
    ∃ (a0 a1 a2 : String) (gp : G) (s1 : σ) (t1 : List Event) (gr : Gr) (s2 : σ) (oldDur : D)
      (s3 : σ) (oldResults : List R) (s4 : σ) (u4 : List Event) (oldBench : B) (s5 : σ)
      (c : Option Err) (s6 : σ) (newDur : D) (s7 : σ) (newResults : List R) (s8 : σ)
      (u8 : List Event) (newBench : B) (s9 : σ) (gl : GitLog) (s10 : σ) (bts : Bytes),
      osArgs = [a0, a1, a2] ∧
      initGopath w testPackages s = ((gp, none), s1, t1) ∧
      w.newGoroot s1 = (gr, s2) ∧
      w.switchRevision gr a1 s2 = ((oldDur, none), s3) ∧
      getResult w gp testPackages s3 = ((oldResults, none), s4, u4) ∧
      w.runBenchmark gp benchmark s4 = ((oldBench, none), s5) ∧
      w.cleanPkg gp s5 = (c, s6) ∧
      w.switchRevision gr a2 s6 = ((newDur, none), s7) ∧
      getResult w gp testPackages s7 = ((newResults, none), s8, u8) ∧
      w.runBenchmark gp benchmark s8 = ((newBench, none), s9) ∧
      w.getGitLog gr a1 a2 s9 = ((gl, none), s10) ∧
      w.reportBytes
          { gp := gp, oldGoCompileTime := oldDur, newGoCompileTime := newDur,
            oldResults := oldResults, newResults := newResults,
            oldBenchmark := oldBench, newBenchmark := newBench } = (bts, none) ∧
      documentOf (main w osArgs s).2.2 = some (document (w.now s10) gl bts) ∧
      (w.writeFile defaultReportName (document (w.now s10) gl bts) 438 s10).1 = none ∧
      (main w osArgs s).2.1 =
        (w.writeFile defaultReportName (document (w.now s10) gl bts) 438 s10).2 := by
  rcases main_args w osArgs s with ⟨a0, a1, a2, rfl⟩ | ⟨-, -, hst⟩
  swap
  · rw [hret] at hst; simp [Outcome.status] at hst
  rcases main_inv w a0 a1 a2 s with ⟨-, f, e, hout, -⟩ | hfull
  · rw [hout] at hret; simp at hret
  obtain ⟨gp, s1, t1, gr, s2, oldDur, s3, oldResults, s4, oldBench, s5, c, s6, newDur, s7,
    newResults, s8, newBench, s9, gl, s10, bts, werr, s11, h1, h2, h3, h4, h5, h6, h7, h8, h9,
    h10, h11, h12, hres⟩ := hfull
  refine ⟨a0, a1, a2, gp, s1, t1, gr, s2, oldDur, s3, oldResults, s4, _, oldBench, s5, c, s6,
    newDur, s7, newResults, s8, _, newBench, s9, gl, s10, bts, rfl, h1, h2, h3, h4, h5, h6, h7,
    h8, h9, h10, h11, ?_, ?_, ?_⟩
  · rw [hres]
    have hinit := (initGopath_events w testPackages s).2
    rw [h1] at hinit
    have hdoc : ∀ (t : List Event) (rest : List Event),
        (∀ e ∈ t, e.call.isWriteFile = false) → documentOf (t ++ rest) = documentOf rest := by
      intro t rest ht
      induction t with
      | nil => rfl
      | cons e t ih =>
        have he := ht e (List.mem_cons_self _ _)
        have ih2 := ih (fun e2 h2 => ht e2 (List.mem_cons_of_mem _ h2))
        rcases e with ⟨ln, cl, ok⟩
        cases cl <;> first | (simp [Call.isWriteFile] at he; done) | simpa [documentOf] using ih2
    simp only [List.append_assoc]
    rw [hdoc t1 _ (fun e he => (hinit e he).2.1)]
    simp [testPackages, runTestEvent, documentOf]
  · rw [h12]
    rw [hres] at hret
    cases werr with
    | none => rfl
    | some e => simp at hret
  · rw [hres, h12]

end Main

/-- C2 on the concrete world: when `RunTest` cannot run the third package of
the old revision's corpus pass, and when `switchRevision` fails for the new
revision, the run ends with a non-zero status and no write. -/
theorem main_failed_step_no_report_witness :
    ((⟨143, .runTest "github.com/gogits/gogs" 1, false⟩ : Event) ∈
        (main simWorld ["report", "old", "new"] simBroken).2.2 ∧
      143 ∈ checkedLines ∧
      (main simWorld ["report", "old", "new"] simBroken).1.status ≠ 0 ∧
      fileWritten (main simWorld ["report", "old", "new"] simBroken).2.2 = false) ∧
    ((⟨62, .switchRevision "new", false⟩ : Event) ∈
        (main simWorld ["report", "old", "new"] simBadRev).2.2 ∧
      62 ∈ checkedLines ∧
      (main simWorld ["report", "old", "new"] simBadRev).1.status ≠ 0 ∧
      fileWritten (main simWorld ["report", "old", "new"] simBadRev).2.2 = false) :=
  ⟨⟨by decide, by decide,
      main_failed_step_no_report simWorld ["report", "old", "new"] simBroken
        ⟨143, .runTest "github.com/gogits/gogs" 1, false⟩ (by decide) rfl (by decide)⟩,
    ⟨by decide, by decide,
      main_failed_step_no_report simWorld ["report", "old", "new"] simBadRev
        ⟨62, .switchRevision "new", false⟩ (by decide) rfl (by decide)⟩⟩

/-- C9 on the concrete world: with one positional argument the run ends in
the usage error for `report`, nothing done; with two the outcome is not the
usage error. -/
theorem main_usage_witness :
    (["report", "old"].length ≠ 3 ∧
      (main simWorld ["report", "old"] sim0).1.status ≠ 0 ∧
      (main simWorld ["report", "old"] sim0).2.1 = sim0 ∧
      (main simWorld ["report", "old"] sim0).2.2 = [] ∧
      (main simWorld ["report", "old"] sim0).1 = .fatal "Usage: %s <start> <end>" "report") ∧
    (["report", "old", "new"].length = 3 ∧
      ∀ a, (main simWorld ["report", "old", "new"] sim0).1 ≠
        .fatal "Usage: %s <start> <end>" a) :=
  ⟨⟨by decide,
      ((main_usage simWorld ["report", "old"] sim0).1 (by decide)).1,
      ((main_usage simWorld ["report", "old"] sim0).1 (by decide)).2.1,
      ((main_usage simWorld ["report", "old"] sim0).1 (by decide)).2.2.1,
      ((main_usage simWorld ["report", "old"] sim0).1 (by decide)).2.2.2 "report" ["old"] rfl⟩,
    ⟨by decide, (main_usage simWorld ["report", "old", "new"] sim0).2 (by decide)⟩⟩

/-! ## The written document -/

section Document

variable {σ G Gr D R B : Type}

/-- C6: when `getGitLog` returns the log `gl` without error and the rendering
returns the body `body` without error, the bytes `writeReport` passes to
`ioutil.WriteFile` (under the given name, with mode 0666, as its last call)
are the title with month, day and year of the date read, the line
`Number of commits: <cnt>`, an empty line, the body, a newline, the heading
`## GIT Log` followed by an empty line, the opening fence, the log bytes
unchanged and the closing fence, in this order; for `cnt = 7` the count line
is `Number of commits: 7`. -/
theorem writeReport_document (w : World σ G Gr D R B) (osArgs : List String) (name : String)
    (gr : Gr) (report : Report G D R B) (s s1 : σ) (a1 a2 : String) (gl : GitLog) (body : Bytes)
    (h1 : osArgs[1]? = some a1) (h2 : osArgs[2]? = some a2)
    (hg : w.getGitLog gr a1 a2 s = ((gl, none), s1))
    (hb : w.reportBytes report = (body, none)) :
    (∃ ok, (writeReport w osArgs name gr report s).2.2.getLast? =
      some ⟨111, .writeFile name
        (bytesOf ("# " ++ (w.now s1).month.String ++ " " ++ fmtInt (w.now s1).day ++ ", " ++
            fmtInt (w.now s1).year ++ " Report\n\n") ++
          bytesOf ("Number of commits: " ++ fmtInt gl.cnt ++ "\n") ++ bytesOf "\n" ++ body ++
          bytesOf "\n" ++ bytesOf "## GIT Log\n\n" ++ bytesOf "```\n" ++ gl.log ++
          bytesOf "```") 438, ok⟩) ∧
    documentOf (writeReport w osArgs name gr report s).2.2 =
      some (bytesOf ("# " ++ (w.now s1).month.String ++ " " ++ fmtInt (w.now s1).day ++ ", " ++
            fmtInt (w.now s1).year ++ " Report\n\n") ++
          bytesOf ("Number of commits: " ++ fmtInt gl.cnt ++ "\n") ++ bytesOf "\n" ++ body ++
          bytesOf "\n" ++ bytesOf "## GIT Log\n\n" ++ bytesOf "```\n" ++ gl.log ++
          bytesOf "```") ∧
    (gl.cnt = 7 →
      bytesOf ("Number of commits: " ++ fmtInt gl.cnt ++ "\n") =
        bytesOf "Number of commits: 7\n") := by
  rw [writeReport_ok w osArgs name gr report s s1 a1 a2 gl body h1 h2 hg hb]
  refine ⟨⟨(w.writeFile name (document (w.now s1) gl body) 438 s1).1.isNone, ?_⟩, ?_, ?_⟩
  · simp [document, titleText, commitsText]
  · simp [documentOf, document, titleText, commitsText]
  · intro h7
    rw [h7]
    decide

theorem codes_injective : Function.Injective codes := by
  intro a b h
  have hc : Function.Injective Char.toNat := by
    intro c d hcd
    apply Char.ext
    unfold Char.toNat at hcd
    exact UInt32.toNat.inj hcd
  exact String.ext (List.map_injective_iff.mpr hc h)

theorem nameLe_total (a b : String) : nameLe a b ∨ nameLe b a := le_total (codes a) (codes b)

theorem nameLe_trans (a b c : String) (h1 : nameLe a b) (h2 : nameLe b c) : nameLe a c :=
  le_trans (show codes a ≤ codes b from h1) h2

theorem nameLe_antisymm (a b : String) (h1 : nameLe a b) (h2 : nameLe b a) : a = b :=
  codes_injective (le_antisymm (show codes a ≤ codes b from h1) h2)

theorem libraryNames_perm {M : Type} (o1 n1 o2 n2 : BenchmarkResult M)
    (ho : o1.Perm o2) (hn : n1.Perm n2) : libraryNames o1 n1 = libraryNames o2 n2 := by
  haveI : IsTotal String nameLe := ⟨nameLe_total⟩
  haveI : IsTrans String nameLe := ⟨nameLe_trans⟩
  haveI : IsAntisymm String nameLe := ⟨nameLe_antisymm⟩
  unfold libraryNames
  have hp : (o1.map Prod.fst ++ n1.map Prod.fst).dedup.Perm
      (o2.map Prod.fst ++ n2.map Prod.fst).dedup :=
    ((ho.map Prod.fst).append (hn.map Prod.fst)).dedup
  exact List.eq_of_perm_of_sorted
    (((List.perm_insertionSort nameLe _).trans hp).trans (List.perm_insertionSort nameLe _).symm)
    (List.sorted_insertionSort nameLe _) (List.sorted_insertionSort nameLe _)

theorem lookup_eq_some_iff_mem {M : Type} (n : String) (v : M) :
    ∀ l : BenchmarkResult M, (l.map Prod.fst).Nodup → (l.lookup n = some v ↔ (n, v) ∈ l) := by
  intro l
  induction l with
  | nil => intro _; simp
  | cons e l ih =>
    intro hnd
    obtain ⟨k, x⟩ := e
    simp only [List.map_cons, List.nodup_cons] at hnd
    obtain ⟨hk, hnd2⟩ := hnd
    by_cases hnk : n = k
    · subst hnk
      have hnot : ∀ y, (n, y) ∉ l := by
        intro y hy
        exact hk (List.mem_map.mpr ⟨(n, y), hy, rfl⟩)
      simp [List.lookup, hnot]
      exact eq_comm
    · have hb : (n == k) = false := by simpa using hnk
      simp [List.lookup, hb, hnk, ih hnd2]

theorem lookup_perm {M : Type} (n : String) (l1 l2 : BenchmarkResult M)
    (hnd : (l1.map Prod.fst).Nodup) (hp : l1.Perm l2) : l1.lookup n = l2.lookup n := by
  have hnd2 : (l2.map Prod.fst).Nodup := (hp.map Prod.fst).nodup_iff.mp hnd
  apply Option.ext
  intro v
  simp only [Option.mem_def]
  rw [lookup_eq_some_iff_mem n v l1 hnd, lookup_eq_some_iff_mem n v l2 hnd2]
  exact hp.mem_iff

theorem composeBody_deterministic {G D R M : Type} (L : Layout D R M)
    (r1 r2 : Report G D R (BenchmarkResult M))
    (hod : r1.oldGoCompileTime = r2.oldGoCompileTime)
    (hnd : r1.newGoCompileTime = r2.newGoCompileTime)
    (hor : r1.oldResults = r2.oldResults) (hnr : r1.newResults = r2.newResults)
    (hok : (r1.oldBenchmark.map Prod.fst).Nodup) (hnk : (r1.newBenchmark.map Prod.fst).Nodup)
    (hob : r1.oldBenchmark.Perm r2.oldBenchmark) (hnb : r1.newBenchmark.Perm r2.newBenchmark) :
    composeBody L r1 = composeBody L r2 := by
  unfold composeBody
  rw [hod, hnd, hor, hnr, libraryNames_perm _ _ _ _ hob hnb]
  have hrow : (fun n => L.libraryRow n (r1.oldBenchmark.lookup n) (r1.newBenchmark.lookup n)) =
      (fun n => L.libraryRow n (r2.oldBenchmark.lookup n) (r2.newBenchmark.lookup n)) := by
    funext n
    rw [lookup_perm n _ _ hok hob, lookup_perm n _ _ hnk hnb]
  rw [hrow]

/-- C7: take two invocations of `writeReport`, in any two worlds whose
`report.Bytes` composes the body as the spec describes, with any workspaces,
file names, arguments and states.  If the two reports hold the same rebuild
durations, the same ordered package results and the same benchmark mappings
(the same entries, in whatever order each mapping is iterated), and the two
`getGitLog` calls return the same log, then both invocations produce a
document, the two documents are the title of their respective generation date
followed by the same bytes, and they are equal when the dates are equal. -/
theorem writeReport_deterministic {M : Type} (L : Layout D R M)
    (w1 w2 : World σ G Gr D R (BenchmarkResult M))
    (hw1 : w1.reportBytes = composeBody L) (hw2 : w2.reportBytes = composeBody L)
    (osArgs1 osArgs2 : List String) (name1 name2 : String) (gr1 gr2 : Gr)
    (r1 r2 : Report G D R (BenchmarkResult M)) (s s1 t t1 : σ) (a1 a2 b1 b2 : String)
    (gl : GitLog)
    (hod : r1.oldGoCompileTime = r2.oldGoCompileTime)
    (hnd : r1.newGoCompileTime = r2.newGoCompileTime)
    (hor : r1.oldResults = r2.oldResults) (hnr : r1.newResults = r2.newResults)
    (hok : (r1.oldBenchmark.map Prod.fst).Nodup) (hnk : (r1.newBenchmark.map Prod.fst).Nodup)
    (hob : r1.oldBenchmark.Perm r2.oldBenchmark) (hnb : r1.newBenchmark.Perm r2.newBenchmark)
    (ha1 : osArgs1[1]? = some a1) (ha2 : osArgs1[2]? = some a2)
    (hb1 : osArgs2[1]? = some b1) (hb2 : osArgs2[2]? = some b2)
    (hs : w1.getGitLog gr1 a1 a2 s = ((gl, none), s1))
    (ht : w2.getGitLog gr2 b1 b2 t = ((gl, none), t1)) :
    ∃ rest : Bytes,
      documentOf (writeReport w1 osArgs1 name1 gr1 r1 s).2.2 =
        some (bytesOf (titleText (w1.now s1)) ++ rest) ∧
      documentOf (writeReport w2 osArgs2 name2 gr2 r2 t).2.2 =
        some (bytesOf (titleText (w2.now t1)) ++ rest) ∧
      (w1.now s1 = w2.now t1 →
        documentOf (writeReport w1 osArgs1 name1 gr1 r1 s).2.2 =
          documentOf (writeReport w2 osArgs2 name2 gr2 r2 t).2.2) := by
  have hbody := composeBody_deterministic (G := G) L r1 r2 hod hnd hor hnr hok hnk hob hnb
  have hB1 : w1.reportBytes r1 = ((composeBody (G := G) L r1).1, none) := by rw [hw1]; rfl
  have hB2 : w2.reportBytes r2 = ((composeBody (G := G) L r1).1, none) := by
    rw [hw2, ← hbody]; rfl
  rw [writeReport_ok w1 osArgs1 name1 gr1 r1 s s1 a1 a2 gl _ ha1 ha2 hs hB1,
    writeReport_ok w2 osArgs2 name2 gr2 r2 t t1 b1 b2 gl _ hb1 hb2 ht hB2]
  refine ⟨bytesOf (commitsText gl.cnt) ++ bytesOf "\n" ++ (composeBody (G := G) L r1).1 ++
    bytesOf "\n" ++ bytesOf "## GIT Log\n\n" ++ bytesOf "```\n" ++ gl.log ++ bytesOf "```",
    ?_, ?_, ?_⟩
  · simp [documentOf, document]
  · simp [documentOf, document]
  · intro hd
    simp [documentOf, hd]

end Document

/-! ## The order of the steps -/

section Order

variable {σ G Gr D R B : Type}

theorem compress_same (a : Phase) (r : List Phase) :
    ∀ l : List Phase, (∀ x ∈ l, x = a) → compress (a :: (l ++ r)) = compress (a :: r) := by
  intro l
  induction l with
  | nil => intro _; rfl
  | cons x l ih =>
    intro h
    have hx : x = a := h x (List.mem_cons_self _ _)
    subst hx
    have := ih (fun y hy => h y (List.mem_cons_of_mem _ hy))
    simp only [List.cons_append, compress, if_true]
    exact this

theorem phases_init (t1 rest : List Event) (hne : t1 ≠ [])
    (hall : ∀ e ∈ t1, 114 ≤ e.line ∧ e.line ≤ 138) :
    phases (t1 ++ rest) = compress (.init :: rest.filterMap phaseOf) := by
  have hp : ∀ e ∈ t1, phaseOf e = some .init := by
    intro e he
    have := hall e he
    simp [phaseOf, this.1, this.2]
  rcases t1 with _ | ⟨e, t⟩
  · exact absurd rfl hne
  · have he := hp e (List.mem_cons_self _ _)
    have hrest : ∀ x ∈ t.filterMap phaseOf, x = Phase.init := by
      intro x hx
      rw [List.mem_filterMap] at hx
      obtain ⟨e2, h2, h3⟩ := hx
      have := hp e2 (List.mem_cons_of_mem _ h2)
      rw [this] at h3
      exact (Option.some.inj h3).symm
    unfold phases
    rw [List.cons_append, List.filterMap_cons, he, List.filterMap_append]
    exact compress_same .init _ _ hrest

/-- C8, as the code has it: a run of `main` that returns makes exactly these
calls, in this order and none besides.  Workspace initialization (read
`TEST_GOPATH`; create a temporary directory when it is empty; `newGopath`,
`CleanPkg`, `GoGet` of the corpus; removal of the temporary directory when one
was created); the `goroot` handle; then for the old revision `os.Args[1]`:
`switchRevision`, one `RunTest` per package of `testPackages` in order,
`RunBenchmark`, `CleanPkg`; then for the new revision `os.Args[2]`:
`switchRevision`, one `RunTest` per package in order, `RunBenchmark`, and no
clean; then the report: `getGitLog` of the two revisions, the date, the
rendering, the write.  Step by step that is initialization, switch, corpus,
benchmark, clean, switch, corpus, benchmark, report. -/
theorem main_phases (w : World σ G Gr D R B) (osArgs : List String) (s : σ)
    (hret : (main w osArgs s).1 = .returned ()) :
    ∃ (a0 a1 a2 : String) (initTrace : List Event) (cleaned : Bool) (doc : Bytes),
      osArgs = [a0, a1, a2] ∧
      initTrace = (initGopath w testPackages s).2.2 ∧
      ((w.getenv "TEST_GOPATH" s ≠ "" ∧
          initTrace = [⟨116, .getenv "TEST_GOPATH", true⟩,
            ⟨126, .newGopath (w.getenv "TEST_GOPATH" s), true⟩, ⟨130, .cleanPkg, true⟩,
            ⟨134, .goGet testPackages, true⟩]) ∨
        (w.getenv "TEST_GOPATH" s = "" ∧ ∃ (tg : String) (removed : Bool),
          initTrace = [⟨116, .getenv "TEST_GOPATH", true⟩,
            ⟨119, .tempDir "" "report-gopath-", true⟩, ⟨126, .newGopath tg, true⟩,
            ⟨130, .cleanPkg, true⟩, ⟨134, .goGet testPackages, true⟩,
            ⟨123, .removeAll tg, removed⟩])) ∧
      (main w osArgs s).2.2 =
        initTrace ++ [⟨42, .newGoroot, true⟩] ++
          [⟨45, .switchRevision a1, true⟩] ++
          testPackages.map (fun p => ⟨143, .runTest p samplesCount, true⟩) ++
          [⟨54, .runBenchmark benchmark, true⟩] ++
          [⟨59, .cleanPkg, cleaned⟩] ++
          [⟨62, .switchRevision a2, true⟩] ++
          testPackages.map (fun p => ⟨143, .runTest p samplesCount, true⟩) ++
          [⟨71, .runBenchmark benchmark, true⟩] ++
          [⟨92, .getGitLog a1 a2, true⟩, ⟨97, .now, true⟩, ⟨101, .reportBytes, true⟩,
            ⟨111, .writeFile defaultReportName doc 438, true⟩] ∧
      phases (main w osArgs s).2.2 =
        [.init, .switch, .corpus, .bench, .clean, .switch, .corpus, .bench, .report] := by
  rcases main_args w osArgs s with ⟨a0, a1, a2, rfl⟩ | ⟨-, -, hst⟩
  swap
  · rw [hret] at hst; simp [Outcome.status] at hst
  rcases main_inv w a0 a1 a2 s with ⟨-, f, e, hout, -⟩ | hfull
  · rw [hout] at hret; simp at hret
  obtain ⟨gp, s1, t1, gr, s2, oldDur, s3, oldResults, s4, oldBench, s5, c, s6, newDur, s7,
    newResults, s8, newBench, s9, gl, s10, bts, werr, s11, h1, -, -, -, -, -, -, -, -, -, -,
    -, hres⟩ := hfull
  have hinit := initGopath_events w testPackages s
  have hexact := initGopath_ok_trace w testPackages s s1 gp t1 h1
  rw [h1] at hinit
  have hw : werr = none := by
    rw [hres] at hret
    cases werr with
    | none => rfl
    | some e => simp at hret
  subst hw
  refine ⟨a0, a1, a2, t1, c.isNone, document (w.now s10) gl bts, rfl, by rw [h1], hexact, ?_, ?_⟩
  · rw [hres]
    simp only [List.append_assoc, List.cons_append, List.nil_append, runTestEvent,
      Option.isNone_none]
    rfl
  · rw [hres]
    simp only [List.append_assoc]
    rw [phases_init t1 _ hinit.1 (fun e he => (hinit.2 e he).1)]
    rfl

end Order

/-! ## The concrete world: instances and failing inputs -/

/-- C10 on the concrete world: the run with arguments `old`, `new` returns;
the log in the document is the one of `getGitLog "old" "new"`, the durations
12 and 10 are those of the old and the new revision. -/
theorem main_report_values_witness :
    (main simWorld ["report", "old", "new"] sim0).1 = .returned () ∧
    ∃ (a1 a2 : String) (gr : Unit) (oldDur newDur : Nat) (s2 s3 s6 s7 s9 s10 : Sim)
      (gl : GitLog),
      a1 = "old" ∧ a2 = "new" ∧
      simWorld.switchRevision gr a1 s2 = ((oldDur, none), s3) ∧ oldDur = 12 ∧
      simWorld.switchRevision gr a2 s6 = ((newDur, none), s7) ∧ newDur = 10 ∧
      simWorld.getGitLog gr a1 a2 s9 = ((gl, none), s10) ∧
      gl = ⟨7, bytesOf "old..new\n"⟩ := by
  refine ⟨by decide, ?_⟩
  obtain ⟨a0, a1, a2, gp, s1, t1, gr, s2, oldDur, s3, oldResults, s4, u4, oldBench, s5, c, s6,
    newDur, s7, newResults, s8, u8, newBench, s9, gl, s10, bts, h0, -, -, h3, -, -, -, h7, -, -,
    h10, -⟩ := main_report_values simWorld ["report", "old", "new"] sim0 (by decide)
  simp only [List.cons.injEq, and_true] at h0
  obtain ⟨-, hb1, hb2⟩ := h0
  subst hb1 hb2
  refine ⟨"old", "new", gr, oldDur, newDur, s2, s3, s6, s7, s9, s10, gl, rfl, rfl, h3, ?_, h7,
    ?_, h10, ?_⟩
  · simp only [simWorld] at h3
    split at h3
    · simp at h3
    · simp at h3
      exact h3.1.symm
  · simp only [simWorld] at h7
    split at h7
    · simp at h7
    · simp at h7
      exact h7.1.symm
  · simp only [simWorld] at h10
    simp at h10
    exact h10.1.symm

/-- C6 on the concrete world: the document for 5 March 2016, seven commits and
the log `old..new`. -/
theorem writeReport_document_witness :
    simWorld.getGitLog () "old" "new" sim0 = ((⟨7, bytesOf "old..new\n"⟩, none), sim0) ∧
    simWorld.reportBytes simReport = (bytesOf "old", none) ∧
    documentOf (writeReport simWorld ["report", "old", "new"] "report.md" () simReport sim0).2.2 =
      some (bytesOf ("# March 5, 2016 Report\n\nNumber of commits: 7\n\nold\n" ++
        "## GIT Log\n\n```\nold..new\n```")) :=
  ⟨by decide, by decide,
    (writeReport_document simWorld ["report", "old", "new"] "report.md" () simReport sim0 sim0
      "old" "new" ⟨7, bytesOf "old..new\n"⟩ (bytesOf "old") rfl rfl (by decide)
      (by decide)).2.1.trans (by decide)⟩

/-- C7 on the concrete world: the same snapshots, held in two workspaces with
the benchmark mappings iterated in different orders, written under two names
on 5 March and on 1 April, give documents that differ in the title only. -/
theorem writeReport_deterministic_witness :
    (specReport1.oldBenchmark.map Prod.fst).Nodup ∧
    (specReport1.newBenchmark.map Prod.fst).Nodup ∧
    specReport1.oldBenchmark.Perm specReport2.oldBenchmark ∧
    specReport1.newBenchmark.Perm specReport2.newBenchmark ∧
    specReport1.gp ≠ specReport2.gp ∧
    specReport1.newBenchmark ≠ specReport2.newBenchmark ∧
    specWorld.getGitLog () "old" "new" sim0 = ((⟨7, bytesOf "old..new\n"⟩, none), sim0) ∧
    specWorld.getGitLog () "old" "new" simLater =
      ((⟨7, bytesOf "old..new\n"⟩, none), simLater) ∧
    ∃ rest : Bytes,
      documentOf (writeReport specWorld ["report", "old", "new"] "report.md" () specReport1
          sim0).2.2 = some (bytesOf (titleText (specWorld.now sim0)) ++ rest) ∧
      documentOf (writeReport specWorld ["report", "old", "new"] "other.md" () specReport2
          simLater).2.2 = some (bytesOf (titleText (specWorld.now simLater)) ++ rest) ∧
      (specWorld.now sim0 = specWorld.now simLater →
        documentOf (writeReport specWorld ["report", "old", "new"] "report.md" () specReport1
            sim0).2.2 =
          documentOf (writeReport specWorld ["report", "old", "new"] "other.md" () specReport2
            simLater).2.2) :=
  ⟨by decide, by decide, by decide, by decide, by decide, by decide, by decide, by decide,
    writeReport_deterministic simLayout specWorld specWorld rfl rfl
      ["report", "old", "new"] ["report", "old", "new"] "report.md" "other.md" () ()
      specReport1 specReport2 sim0 sim0 simLater simLater "old" "new" "old" "new"
      ⟨7, bytesOf "old..new\n"⟩ rfl rfl rfl rfl (by decide) (by decide) (by decide) (by decide)
      rfl rfl rfl rfl (by decide) (by decide)⟩

/-- C8 on the concrete world: the run with revisions `old` and `new` returns,
and its calls are the ones listed, the first pass under `old`, the second
under `new`. -/
theorem main_phases_witness :
    (main simWorld ["report", "old", "new"] sim0).1 = .returned () ∧
    ∃ (a0 a1 a2 : String) (initTrace : List Event) (cleaned : Bool) (doc : Bytes),
      ["report", "old", "new"] = [a0, a1, a2] ∧
      initTrace = (initGopath simWorld testPackages sim0).2.2 ∧
      ((simWorld.getenv "TEST_GOPATH" sim0 ≠ "" ∧
          initTrace = [⟨116, .getenv "TEST_GOPATH", true⟩,
            ⟨126, .newGopath (simWorld.getenv "TEST_GOPATH" sim0), true⟩,
            ⟨130, .cleanPkg, true⟩, ⟨134, .goGet testPackages, true⟩]) ∨
        (simWorld.getenv "TEST_GOPATH" sim0 = "" ∧ ∃ (tg : String) (removed : Bool),
          initTrace = [⟨116, .getenv "TEST_GOPATH", true⟩,
            ⟨119, .tempDir "" "report-gopath-", true⟩, ⟨126, .newGopath tg, true⟩,
            ⟨130, .cleanPkg, true⟩, ⟨134, .goGet testPackages, true⟩,
            ⟨123, .removeAll tg, removed⟩])) ∧
      (main simWorld ["report", "old", "new"] sim0).2.2 =
        initTrace ++ [⟨42, .newGoroot, true⟩] ++
          [⟨45, .switchRevision a1, true⟩] ++
          testPackages.map (fun p => ⟨143, .runTest p samplesCount, true⟩) ++
          [⟨54, .runBenchmark benchmark, true⟩] ++
          [⟨59, .cleanPkg, cleaned⟩] ++
          [⟨62, .switchRevision a2, true⟩] ++
          testPackages.map (fun p => ⟨143, .runTest p samplesCount, true⟩) ++
          [⟨71, .runBenchmark benchmark, true⟩] ++
          [⟨92, .getGitLog a1 a2, true⟩, ⟨97, .now, true⟩, ⟨101, .reportBytes, true⟩,
            ⟨111, .writeFile defaultReportName doc 438, true⟩] ∧
      phases (main simWorld ["report", "old", "new"] sim0).2.2 =
        [.init, .switch, .corpus, .bench, .clean, .switch, .corpus, .bench, .report] :=
  ⟨by decide, main_phases simWorld ["report", "old", "new"] sim0 (by decide)⟩

/-- C8 as stated fails: this run returns, and its steps are not
initialization, then switch, corpus, benchmark, clean for each of the two
revisions, then the report: from the new revision's benchmark run (line 71)
to the end of the run no `CleanPkg` call is made, and the whole run makes one
`CleanPkg` call outside initialization. -/
theorem main_phases_counterexample :
    ¬ ((main simWorld ["report", "old", "new"] sim0).1 = .returned () →
      phases (main simWorld ["report", "old", "new"] sim0).2.2 =
        [.init, .switch, .corpus, .bench, .clean, .switch, .corpus, .bench, .clean,
          .report]) ∧
    (∀ e ∈ (main simWorld ["report", "old", "new"] sim0).2.2.dropWhile
        (fun e => e.line != 71), e.call ≠ .cleanPkg) ∧
    ((main simWorld ["report", "old", "new"] sim0).2.2.filter
        (fun e => e.call == .cleanPkg && e.line != 130)).map (fun e => e.line) = [59] := by
  decide

/-- C3 at a failing input: the `CleanPkg` call of line 59 returns an error; the
run goes on to switch to the new revision, runs its corpus and benchmark and
writes the report, and returns.  No successful `CleanPkg` of line 59 is in the
trace. -/
theorem main_continues_after_failed_clean :
    (main simWorld ["report", "old", "new"] simCleanFails).1 = .returned () ∧
    (⟨59, .cleanPkg, true⟩ : Event) ∉ (main simWorld ["report", "old", "new"] simCleanFails).2.2 ∧
    ((main simWorld ["report", "old", "new"] simCleanFails).2.2.dropWhile
        (fun e => e.line != 54)).map (fun e => (e.line, e.ok)) =
      [(54, true), (59, false), (62, true),
        (143, true), (143, true), (143, true), (143, true), (143, true), (143, true),
        (143, true), (143, true), (143, true), (143, true), (143, true), (143, true),
        (71, true), (92, true), (97, true), (101, true), (111, true)] := by
  decide

/-- C4 at a failing input: with `TEST_GOPATH` empty, `TempDir` creates
`/tmp/report-gopath-1`; `initGopath` returns that workspace without error, and
on its return the directory does not exist any more.  In the run of `main`
the `RemoveAll` of line 123 comes before the first `switchRevision`, so before
both corpus passes and both benchmark runs. -/
theorem initGopath_removes_temp_dir :
    simWorld.getenv "TEST_GOPATH" sim0 = "" ∧
    (simWorld.tempDir "" "report-gopath-" sim0).2.dirs = ["/tmp/report-gopath-1"] ∧
    (initGopath simWorld testPackages sim0).1 = ("/tmp/report-gopath-1", none) ∧
    "/tmp/report-gopath-1" ∉ (initGopath simWorld testPackages sim0).2.1.dirs ∧
    (initGopath simWorld testPackages sim0).2.2.getLast? =
      some ⟨123, .removeAll "/tmp/report-gopath-1", true⟩ ∧
    ((main simWorld ["report", "old", "new"] sim0).2.2.map (fun e => e.line)).take 8 =
      [116, 119, 126, 130, 134, 123, 42, 45] := by
  decide

end Narqo
